import Mathlib

/-!
Verification development for the Windows Prefetch artifact decoder
(`src/prefetch.py`, class `Prefetch`).

The byte source is embedded as an immutable byte list `Bytes` together with an
explicitly threaded cursor position `pos : Nat`; every decoder is a function
`... → Bytes → Nat → Except String A × Nat` returning its result (or decode
error) together with the cursor position at exit, mirroring Python stream
semantics: `BytesIO.read` returns up to `n` bytes without error, while the
`construct` library's `parse_stream` raises on a short read.

The per-version binary field layouts (the `structures.prefetch` module) and the
property-cache plumbing (`lib.parsers`) are external collaborators that are not
under `src/`; where a claim needs them they are modelled from the spec, each
such definition carrying a doc comment starting with `Modelled from the spec:`.
-/

abbrev Bytes := List Nat

/-- Read up to `n` bytes at `pos`, advancing the cursor by the number of bytes
actually obtained.  This is Python `BytesIO.read(n)`: a short read is not an
error. -/
def readUpTo (data : Bytes) (pos n : Nat) : Bytes × Nat :=
  let bs := (data.drop pos).take n
  (bs, pos + bs.length)

/-- Read exactly `n` bytes at `pos`; fewer available bytes is an error (the
`construct` library's `stream_read`, which raises on a short read).  The cursor
still advances by the number of bytes consumed, as in Python. -/
def readExact (data : Bytes) (pos n : Nat) : Except String Bytes × Nat :=
  let r := readUpTo data pos n
  (if r.1.length = n then .ok r.1 else .error "short read", r.2)

/-- Little-endian byte-list to natural number (construct `Int16ul`/`Int32ul`). -/
def leNat : Bytes → Nat
  | [] => 0
  | b :: t => b + 256 * leNat t

def nullChar : Char := Char.ofNat 0

/-- Python `str.strip(chr(0))`: remove leading and trailing null characters. -/
def stripNulls (l : List Char) : List Char :=
  ((l.dropWhile (fun c => c = nullChar)).reverse.dropWhile (fun c => c = nullChar)).reverse

/-- Pair a byte list into 16-bit units (`be = true` for big-endian); fails on an
odd number of bytes, as Python's UTF-16 codec does. -/
def utf16Units (be : Bool) : Bytes → Option (List Nat)
  | [] => some []
  | [_] => none
  | b0 :: b1 :: t =>
    let u := if be then b1 + 256 * b0 else b0 + 256 * b1
    (utf16Units be t).map (fun us => u :: us)

/-- Combine 16-bit units into characters, pairing surrogates; a lone surrogate
is a decode error, as in Python's strict UTF-16 codec. -/
def utf16Chars : List Nat → Option (List Char)
  | [] => some []
  | u :: t =>
    if u < 0xD800 ∨ 0xE000 ≤ u then
      (utf16Chars t).map (fun cs => Char.ofNat u :: cs)
    else if u < 0xDC00 then
      match t with
      | u2 :: t2 =>
        if 0xDC00 ≤ u2 ∧ u2 < 0xE000 then
          (utf16Chars t2).map (fun cs =>
            Char.ofNat (0x10000 + (u - 0xD800) * 0x400 + (u2 - 0xDC00)) :: cs)
        else none
      | [] => none
    else none

/-- Python `bytes.decode(chr(85) ...)`, the `UTF16` codec: honour a byte-order
mark when present, defaulting to little-endian. -/
def utf16Decode (bs : Bytes) : Option (List Char) :=
  match bs with
  | 0xFF :: 0xFE :: t => (utf16Units false t).bind utf16Chars
  | 0xFE :: 0xFF :: t => (utf16Units true t).bind utf16Chars
  | _ => (utf16Units false bs).bind utf16Chars

/-- Is `b` a UTF-8 continuation byte? -/
def isCont (b : Nat) : Bool := 0x80 ≤ b ∧ b < 0xC0

/-- Python strict UTF-8 decoding (`bytes.decode` with the `utf8` codec):
rejects continuation bytes in lead position, overlong forms, surrogate code
points and out-of-range sequences. -/
def utf8Decode : Bytes → Option (List Char)
  | [] => some []
  | b :: t =>
    if b < 0x80 then (utf8Decode t).map (fun cs => Char.ofNat b :: cs)
    else if b < 0xC2 then none
    else if b < 0xE0 then
      match t with
      | c1 :: t1 =>
        if isCont c1 then
          (utf8Decode t1).map (fun cs => Char.ofNat ((b - 0xC0) * 64 + (c1 - 0x80)) :: cs)
        else none
      | _ => none
    else if b < 0xF0 then
      match t with
      | c1 :: c2 :: t2 =>
        let cp := (b - 0xE0) * 4096 + (c1 - 0x80) * 64 + (c2 - 0x80)
        if isCont c1 ∧ isCont c2 ∧ 0x800 ≤ cp ∧ ¬(0xD800 ≤ cp ∧ cp < 0xE000) then
          (utf8Decode t2).map (fun cs => Char.ofNat cp :: cs)
        else none
      | _ => none
    else if b < 0xF5 then
      match t with
      | c1 :: c2 :: c3 :: t3 =>
        let cp := (b - 0xF0) * 262144 + (c1 - 0x80) * 4096 + (c2 - 0x80) * 64 + (c3 - 0x80)
        if isCont c1 ∧ isCont c2 ∧ isCont c3 ∧ 0x10000 ≤ cp ∧ cp ≤ 0x10FFFF then
          (utf8Decode t3).map (fun cs => Char.ofNat cp :: cs)
        else none
      | _ => none
    else none

/-- Lowercase hexadecimal digit characters, as produced by Python `hex`. -/
def hexDigit (d : Nat) : Char :=
  if d < 10 then Char.ofNat (48 + d) else if d < 16 then Char.ofNat (87 + d) else '0'

/-- Uppercase hexadecimal digit characters (the spec's rendering). -/
def hexUpperDigit (d : Nat) : Char :=
  if d < 10 then Char.ofNat (48 + d) else if d < 16 then Char.ofNat (55 + d) else '0'

/-- Fuelled most-significant-first hexadecimal digit expansion; `n + 1` units of
fuel always suffice since a number has at most `n + 1` hexadecimal digits. -/
def hexCharsAux : Nat → Nat → List Char
  | 0, _ => []
  | fuel + 1, n =>
    if n < 16 then [hexDigit n] else hexCharsAux fuel (n / 16) ++ [hexDigit (n % 16)]

/-- The digit characters of Python `hex(n)` after the radix prefix. -/
def hexChars (n : Nat) : List Char := hexCharsAux (n + 1) n

def hexUpperCharsAux : Nat → Nat → List Char
  | 0, _ => []
  | fuel + 1, n =>
    if n < 16 then [hexUpperDigit n]
    else hexUpperCharsAux fuel (n / 16) ++ [hexUpperDigit (n % 16)]

/-- The raw hash rendered as uppercase hexadecimal with no radix prefix: the
spec's stated form of `PrefetchHash`, defined independently of the code's
`hex`/`replace`/`upper` pipeline. -/
def hexUpperChars (n : Nat) : List Char := hexUpperCharsAux (n + 1) n

/-- Python `hex(n)`: the radix prefix followed by lowercase digits. -/
def pyHexChars (n : Nat) : List Char := '0' :: 'x' :: hexChars n

/-- Python `str.replace` specialised to replacing the two-character radix
prefix pattern by the empty string: scan left to right, deleting each
occurrence. -/
def replace0x : List Char → List Char
  | [] => []
  | [a] => [a]
  | a :: b :: t =>
    if a = '0' ∧ b = 'x' then replace0x t else a :: replace0x (b :: t)

/-- Python `s.split(chr(0))[0]` as used on the raw executable name: the
characters before the first null, and the remainder after it. -/
def splitAtNull : List Char → List Char × List Char
  | [] => ([], [])
  | c :: t =>
    if c = nullChar then ([], t)
    else
      let r := splitAtNull t
      (c :: r.1, r.2)

/-- Modelled from the spec: the Windows-Timestamp Decoder leaf collaborator
(`lib.parsers.utils.WindowsTime`, not under `src/`), which converts a 64-bit
tick count since a fixed epoch into a calendar timestamp; the calendar value is
kept abstract as the tick count it wraps. -/
structure WinTimestamp where
  ticks : Nat
deriving DecidableEq, Repr

/-- Modelled from the spec: `WindowsTime.parse_filetime`, the conversion entry
point of the Windows-Timestamp Decoder. -/
def WindowsTime_parse_filetime (t : Nat) : WinTimestamp := ⟨t⟩

/-- The raw fixed-size header record as produced by the supplied layout schema
(`pfstructs.PrefetchHeader`): raw signature bytes, decoded version tag label,
fixed-width padded executable-name field and raw content hash. -/
structure RawHeader where
  RawSignature : Bytes
  Version : String
  RawExecutableName : String
  RawPrefetchHash : Nat
deriving DecidableEq, Repr

/-- The decoded header exposed by `Prefetch._parse_header`. -/
structure Header where
  Signature : String
  Version : String
  ExecutableName : String
  PrefetchHash : String
deriving DecidableEq, Repr

/-- The offset/count table decoded by `Prefetch._parse_file_info`
(`pfstructs.PrefetchFileInformation*`): offsets and counts/lengths for the
downstream sections, plus the raw and decoded last-execution timestamps. -/
structure FileInfo where
  SectionAOffset : Nat
  SectionAEntriesCount : Nat
  SectionBOffset : Nat
  SectionBEntriesCount : Nat
  SectionCOffset : Nat
  SectionCLength : Nat
  SectionDOffset : Nat
  SectionDEntriesCount : Nat
  RawLastExecutionTime : List Nat
  LastExecutionTime : List WinTimestamp
  RunCount : Nat
deriving DecidableEq, Repr

/-- The fixed fields of one volume-information record as produced by the
supplied layout schema (`pfstructs.PrefetchVolumeInformation*`). -/
structure RawVolEntry where
  RawVolumeCreateTime : Nat
  VolumeDevicePathOffset : Nat
  VolumeDevicePathLength : Nat
  SectionEOffset : Nat
  SectionFOffset : Nat
  SectionFStringsCount : Nat
deriving DecidableEq, Repr

/-- One fully decoded volume-information entry: the fixed fields plus the
decoded creation timestamp and device path added by
`Prefetch._parse_volumes_info`. -/
structure VolEntry where
  RawVolumeCreateTime : Nat
  VolumeDevicePathOffset : Nat
  VolumeDevicePathLength : Nat
  SectionEOffset : Nat
  SectionFOffset : Nat
  SectionFStringsCount : Nat
  VolumeCreateTime : WinTimestamp
  VolumeDevicePath : String
deriving DecidableEq, Repr

/-- A supplied fixed-record parser from the Binary Layout Schema collaborator:
reads one record at the cursor, returning the record and the advanced cursor,
or a decode error. -/
abbrev RecordParser (α : Type) := Bytes → Nat → Except String α × Nat

/-- Modelled from the spec: the four version-keyed file-information layouts
(`pfstructs.PrefetchFileInformation17/23/26/30`), supplied as configuration. -/
structure FileInfoSchemas where
  v17 : RecordParser FileInfo
  v23 : RecordParser FileInfo
  v26 : RecordParser FileInfo
  v30 : RecordParser FileInfo

/-- Modelled from the spec: the four version-keyed file-metrics layouts
(`pfstructs.PrefetchFileMetricsEntry17/23/26/30`), supplied as configuration. -/
structure MetricsSchemas (α : Type) where
  v17 : RecordParser α
  v23 : RecordParser α
  v26 : RecordParser α
  v30 : RecordParser α

/-- Modelled from the spec: the four version-keyed volume-information layouts
(`pfstructs.PrefetchVolumeInformation17/23/26/30`), supplied as configuration. -/
structure VolSchemas where
  v17 : RecordParser RawVolEntry
  v23 : RecordParser RawVolEntry
  v26 : RecordParser RawVolEntry
  v30 : RecordParser RawVolEntry

/-- The version dispatch of `Prefetch._parse_file_info` (src/prefetch.py lines
227-234): three equality tests and an unconditional else arm selecting the
version-30 layout. -/
def fileInfoSchemaFor (s : FileInfoSchemas) (v : String) : RecordParser FileInfo :=
  if v = "XP" then s.v17
  else if v = "SEVEN" then s.v23
  else if v = "EIGHT" then s.v26
  else s.v30

/-- The version dispatch of `Prefetch._parse_file_metrics` (src/prefetch.py
lines 200-207). -/
def metricsSchemaFor {α : Type} (s : MetricsSchemas α) (v : String) : RecordParser α :=
  if v = "XP" then s.v17
  else if v = "SEVEN" then s.v23
  else if v = "EIGHT" then s.v26
  else s.v30

/-- The version dispatch of `Prefetch._parse_volumes_info` (src/prefetch.py
lines 120-127). -/
def volSchemaFor (s : VolSchemas) (v : String) : RecordParser RawVolEntry :=
  if v = "XP" then s.v17
  else if v = "SEVEN" then s.v23
  else if v = "EIGHT" then s.v26
  else s.v30

/-- The derived-field post-processing of `Prefetch._parse_header`
(src/prefetch.py lines 251-255): decode the signature as UTF-8, truncate the
executable name at its first embedded null, and render the hash through
Python's hex-string, radix-prefix removal and uppercase steps. -/
def deriveHeader (raw : RawHeader) : Except String Header :=
  match utf8Decode raw.RawSignature with
  | none => .error "utf8 decode error"
  | some sig =>
    .ok { Signature := String.mk sig
          Version := raw.Version
          ExecutableName := String.mk (splitAtNull raw.RawExecutableName.toList).1
          PrefetchHash := String.mk ((replace0x (pyHexChars raw.RawPrefetchHash)).map Char.toUpper) }

/-- `Prefetch._parse_header` (src/prefetch.py lines 241-255): parse the fixed
header record at the cursor via the supplied schema, then derive the exposed
fields.  This decoder has no internal cursor save/restore. -/
def parse_header (hp : RecordParser RawHeader) (data : Bytes) (pos : Nat) :
    Except String Header × Nat :=
  match hp data pos with
  | (.error e, p) => (.error e, p)
  | (.ok raw, p) => (deriveHeader raw, p)

/-- `Prefetch._parse_file_info` (src/prefetch.py lines 217-240): version
dispatch, parse the fixed record at the cursor, then resolve each raw
last-execution tick through the Windows-Timestamp Decoder in order.  This
decoder has no internal cursor save/restore. -/
def parse_file_info (fs : FileInfoSchemas) (v : String) (data : Bytes) (pos : Nat) :
    Except String FileInfo × Nat :=
  match fileInfoSchemaFor fs v data pos with
  | (.error e, p) => (.error e, p)
  | (.ok fi, p) =>
    (.ok { fi with LastExecutionTime := fi.RawLastExecutionTime.map WindowsTime_parse_filetime }, p)

/-- The record loop shared by `Prefetch._parse_file_metrics` (src/prefetch.py
lines 208-213) and `Prefetch._parse_trace_chains` (lines 181-183): decode
exactly `count` records in sequence; a record's decode error propagates (there
is no per-entry exception handler in either loop). -/
def recordLoop {α : Type} (rp : RecordParser α) (data : Bytes) : Nat → Nat →
    Except String (List α) × Nat
  | 0, pos => (.ok [], pos)
  | n + 1, pos =>
    match rp data pos with
    | (.error e, p) => (.error e, p)
    | (.ok v, p) =>
      match recordLoop rp data n p with
      | (.error e, p') => (.error e, p')
      | (.ok l, p') => (.ok (v :: l), p')

/-- `Prefetch._parse_file_metrics` (src/prefetch.py lines 187-216): save the
cursor, seek to the metrics-array offset, decode `SectionAEntriesCount`
version-dispatched records, and restore the cursor in a finally block on both
the success and the error path.  (The per-entry `_clean_value` normalisation of
the source is the identity on the record value here.) -/
def parse_file_metrics {α : Type} (ms : MetricsSchemas α) (v : String) (fi : FileInfo)
    (data : Bytes) (pos : Nat) : Except String (List α) × Nat :=
  ((recordLoop (metricsSchemaFor ms v) data fi.SectionAEntriesCount fi.SectionAOffset).1, pos)

/-- `Prefetch._parse_trace_chains` (src/prefetch.py lines 168-186): save the
cursor, seek to the trace-chain offset, decode `SectionBEntriesCount` uniform
records, and restore the cursor in a finally block. -/
def parse_trace_chains {γ : Type} (rp : RecordParser γ) (fi : FileInfo)
    (data : Bytes) (pos : Nat) : Except String (List γ) × Nat :=
  ((recordLoop rp data fi.SectionBEntriesCount fi.SectionBOffset).1, pos)

/-- Modelled from the spec: `pfstructs.PrefetchFileNameString` (the
`structures.prefetch` module is not under `src/`), a length-prefixed UTF-16
text run: a 2-byte length field `L`, then `L * 2 + 2` bytes decoded as UTF-16
with null padding stripped. -/
def parseFileNameString (data : Bytes) (pos : Nat) : Except String String × Nat :=
  match readExact data pos 2 with
  | (.error e, p) => (.error e, p)
  | (.ok lb, p) =>
    match readExact data p (leNat lb * 2 + 2) with
    | (.error e, p2) => (.error e, p2)
    | (.ok bs, p2) =>
      match utf16Decode bs with
      | none => (.error "utf16 decode error", p2)
      | some cs => (.ok (String.mk (stripNulls cs)), p2)

/-- The guarded loop of `Prefetch._parse_filename_strings` (src/prefetch.py
lines 158-164): one iteration per file-metrics entry; while the running offset
from the table start is less than or equal to the declared table length, decode
one filename string (a decode error propagates — there is no per-entry
handler); otherwise append an absent marker without reading. -/
def fnLoop (fi : FileInfo) (data : Bytes) : Nat → Nat →
    Except String (List (Option String)) × Nat
  | 0, pos => (.ok [], pos)
  | n + 1, pos =>
    if pos - fi.SectionCOffset ≤ fi.SectionCLength then
      match parseFileNameString data pos with
      | (.error e, p) => (.error e, p)
      | (.ok s, p) =>
        match fnLoop fi data n p with
        | (.error e, p') => (.error e, p')
        | (.ok l, p') => (.ok (some s :: l), p')
    else
      match fnLoop fi data n pos with
      | (.error e, p') => (.error e, p')
      | (.ok l, p') => (.ok (none :: l), p')

/-- `Prefetch._parse_filename_strings` (src/prefetch.py lines 144-167): save
the cursor, seek to the string-table offset, run the guarded loop once per
file-metrics entry, and restore the cursor in a finally block. -/
def parse_filename_strings (fi : FileInfo) (metricsCount : Nat) (data : Bytes)
    (pos : Nat) : Except String (List (Option String)) × Nat :=
  ((fnLoop fi data metricsCount fi.SectionCOffset).1, pos)

/-- The `construct` `PaddedString(length, utf8)` parse applied in
`Prefetch._parse_volumes_info` after all null bytes have been removed: take
exactly `L` bytes (an error if fewer are present), strip trailing null padding
and decode as UTF-8. -/
def paddedStringUtf8 (L : Nat) (bs : Bytes) : Except String String :=
  if bs.length < L then .error "short read"
  else
    match utf8Decode ((bs.take L).reverse.dropWhile (fun b => b = 0)).reverse with
    | none => .error "utf8 decode error"
    | some cs => .ok (String.mk cs)

/-- The per-entry tail of the volumes-info loop body (src/prefetch.py lines
131-140): remember the position right after the fixed record, resolve the
creation timestamp, seek to the device-path offset relative to the table base,
read twice the declared length in bytes, delete all null bytes, parse the
padded string, and on success seek back to the remembered position.  A decode
error propagates — there is no per-entry exception handler in this loop. -/
def finishVolEntry (fi : FileInfo) (raw : RawVolEntry) (data : Bytes) (p1 : Nat) :
    Except String VolEntry × Nat :=
  let pPath := fi.SectionDOffset + raw.VolumeDevicePathOffset
  let r := readUpTo data pPath (raw.VolumeDevicePathLength * 2)
  match paddedStringUtf8 raw.VolumeDevicePathLength (r.1.filter (fun b => b ≠ 0)) with
  | .error e => (.error e, r.2)
  | .ok path =>
    (.ok { RawVolumeCreateTime := raw.RawVolumeCreateTime
           VolumeDevicePathOffset := raw.VolumeDevicePathOffset
           VolumeDevicePathLength := raw.VolumeDevicePathLength
           SectionEOffset := raw.SectionEOffset
           SectionFOffset := raw.SectionFOffset
           SectionFStringsCount := raw.SectionFStringsCount
           VolumeCreateTime := WindowsTime_parse_filetime raw.RawVolumeCreateTime
           VolumeDevicePath := path }, p1)

/-- The volumes-info record loop (src/prefetch.py lines 129-140): decode the
fixed record, finish the entry (timestamp and device path), and continue the
next iteration from the position right after the fixed record. -/
def volLoop (rp : RecordParser RawVolEntry) (fi : FileInfo) (data : Bytes) :
    Nat → Nat → Except String (List VolEntry) × Nat
  | 0, pos => (.ok [], pos)
  | n + 1, pos =>
    match rp data pos with
    | (.error e, p) => (.error e, p)
    | (.ok raw, p1) =>
      match finishVolEntry fi raw data p1 with
      | (.error e, p') => (.error e, p')
      | (.ok entry, p2) =>
        match volLoop rp fi data n p2 with
        | (.error e, p') => (.error e, p')
        | (.ok l, p') => (.ok (entry :: l), p')

/-- `Prefetch._parse_volumes_info` (src/prefetch.py lines 107-143): save the
cursor, seek to the volume-table offset, decode `SectionDEntriesCount`
version-dispatched records with their timestamps and device paths, and restore
the cursor in a finally block on both the success and the error path. -/
def parse_volumes_info (vs : VolSchemas) (v : String) (fi : FileInfo)
    (data : Bytes) (pos : Nat) : Except String (List VolEntry) × Nat :=
  ((volLoop (volSchemaFor vs v) fi data fi.SectionDEntriesCount fi.SectionDOffset).1, pos)

/-- The per-volume loop of `Prefetch._parse_file_references` (src/prefetch.py
lines 94-103): for each volumes-info entry, seek to the table base plus the
entry's reference-table offset and parse one reference-table record inside a
per-volume exception handler: a failure is logged and replaced by an absent
marker for that volume only, and iteration continues. -/
def fileRefsLoop {β : Type} (rp : RecordParser β) (fi : FileInfo) (data : Bytes) :
    List VolEntry → Nat → List (Option β) × Nat
  | [], pos => ([], pos)
  | ve :: rest, _pos =>
    match rp data (fi.SectionDOffset + ve.SectionEOffset) with
    | (.ok r, p) =>
      let l := fileRefsLoop rp fi data rest p
      (some r :: l.1, l.2)
    | (.error _, p) =>
      let l := fileRefsLoop rp fi data rest p
      (none :: l.1, l.2)

/-- `Prefetch._parse_file_references` (src/prefetch.py lines 82-106): save the
cursor, run the per-volume loop over the cached volumes-info entries (the
supplied `pfstructs.PrefetchFileReferences` record parser is a collaborator
argument; the per-reference container re-wrapping of the source is value
normalisation, the identity here), and restore the cursor in a finally
block. -/
def parse_file_references {β : Type} (rp : RecordParser β) (fi : FileInfo)
    (vols : List VolEntry) (data : Bytes) (pos : Nat) :
    Except String (List (Option β)) × Nat :=
  (.ok (fileRefsLoop rp fi data vols pos).1, pos)

/-- One directory-string parse inside the per-string exception handler of
`Prefetch._parse_directory_strings` (src/prefetch.py lines 71-77): a strict
2-byte length read (`pfstructs.Int16ul.parse_stream`), then a plain stream read
of `length * 2 + 2` bytes (short reads allowed, as `BytesIO.read` does not
raise), decoded as UTF-16 and stripped of null padding; any failure is caught
and yields an absent marker, the cursor staying wherever the reads left it. -/
def parseDirectoryString (data : Bytes) (pos : Nat) : Option String × Nat :=
  match readExact data pos 2 with
  | (.error _, p) => (none, p)
  | (.ok lb, p) =>
    let r := readUpTo data p (leNat lb * 2 + 2)
    match utf16Decode r.1 with
    | none => (none, r.2)
    | some cs => (some (String.mk (stripNulls cs)), r.2)

/-- The inner per-volume string loop of `Prefetch._parse_directory_strings`
(src/prefetch.py lines 70-77): decode exactly the declared number of strings,
each inside the per-string exception handler. -/
def dirStrLoop (data : Bytes) : Nat → Nat → List (Option String) × Nat
  | 0, pos => ([], pos)
  | n + 1, pos =>
    let o := parseDirectoryString data pos
    let l := dirStrLoop data n o.2
    (o.1 :: l.1, l.2)

/-- The outer per-volume loop of `Prefetch._parse_directory_strings`
(src/prefetch.py lines 67-78): for each volumes-info entry, seek to the table
base plus the entry's directory-string-table offset and run the inner string
loop. -/
def dirVolLoop (fi : FileInfo) (data : Bytes) :
    List VolEntry → Nat → List (List (Option String)) × Nat
  | [], pos => ([], pos)
  | ve :: rest, _pos =>
    let l := dirStrLoop data ve.SectionFStringsCount (fi.SectionDOffset + ve.SectionFOffset)
    let ls := dirVolLoop fi data rest l.2
    (l.1 :: ls.1, ls.2)

/-- `Prefetch._parse_directory_strings` (src/prefetch.py lines 54-81): save the
cursor, run the nested loops over the cached volumes-info entries, and restore
the cursor in a finally block. -/
def parse_directory_strings (fi : FileInfo) (vols : List VolEntry) (data : Bytes)
    (pos : Nat) : Except String (List (List (Option String))) × Nat :=
  (.ok (dirVolLoop fi data vols pos).1, pos)

/-- Modelled from the spec: the property cache (`lib.parsers.StructureProperty`
and `FileParser`, not under `src/`) "manages stream-position save/restore
around each decode" — a scoped acquisition of the cursor position with
guaranteed restoration around every section decoder invocation. -/
def withRestore {α : Type} (f : Nat → Except String α × Nat) (pos : Nat) :
    Except String α × Nat :=
  ((f pos).1, pos)

/-- Modelled from the spec: `pfstructs.PrefetchVersion`, the fixed-size leading
format/version tag probe — a 4-byte little-endian tag at the start of the
stream, accepted only when it matches one of the four known layout versions. -/
def parsePrefetchVersion (data : Bytes) : Option Nat :=
  match readExact data 0 4 with
  | (.ok bs, _) =>
    let t := leNat bs
    if t = 17 ∨ t = 23 ∨ t = 26 ∨ t = 30 then some t else none
  | (.error _, _) => none

/-- `Prefetch.__get_version` (src/prefetch.py lines 256-271): open a fresh
handle on the raw source (leaving any existing stream untouched) and attempt
the version-tag probe, any failure yielding the absent marker. -/
def get_version (raw : Bytes) : Option Nat := parsePrefetchVersion raw

/-- `Prefetch.create_stream` (src/prefetch.py lines 272-282): when the probe
fails, the decompression collaborator's output buffer becomes the byte source
(its failure propagating as a fatal error); when the probe succeeds, the raw
bytes themselves become the byte source (the base-class `create_stream`, not
under `src/`, opens the raw source directly per the spec). -/
def create_stream (decompress : Bytes → Except String Bytes) (raw : Bytes) :
    Except String Bytes :=
  match get_version raw with
  | none => decompress raw
  | some _ => .ok raw

deriving instance DecidableEq for Except

/-- A minimal supplied-schema record parser for concrete instances: one
fixed-size four-byte record, read strictly. -/
def rp4 : RecordParser Bytes := fun data pos => readExact data pos 4

/-- A concrete metrics schema instance built from `rp4`. -/
def msTest : MetricsSchemas Bytes := ⟨rp4, rp4, rp4, rp4⟩

/-- A file-information table fixture for the filename-strings boundary: the
string table starts at offset 0 and declares byte length 0. -/
def fiC1 : FileInfo :=
  { SectionAOffset := 0, SectionAEntriesCount := 0, SectionBOffset := 0,
    SectionBEntriesCount := 0, SectionCOffset := 0, SectionCLength := 0, SectionDOffset := 0,
    SectionDEntriesCount := 0, RawLastExecutionTime := [], LastExecutionTime := [], RunCount := 0 }

/-- Bytes holding exactly one length-prefixed UTF-16 string: length 1, then
the UTF-16 run `A` followed by its null terminator. -/
def dataC1 : Bytes := [1, 0, 65, 0, 0, 0]

/-- A file-information table declaring two metrics records at offset 0. -/
def fiC2 : FileInfo :=
  { SectionAOffset := 0, SectionAEntriesCount := 2, SectionBOffset := 0,
    SectionBEntriesCount := 0, SectionCOffset := 0, SectionCLength := 0, SectionDOffset := 0,
    SectionDEntriesCount := 0, RawLastExecutionTime := [], LastExecutionTime := [], RunCount := 0 }

/-- Six bytes: one full four-byte record, then a short read for the second. -/
def dataC2 : Bytes := [0, 1, 2, 3, 4, 5]

/-- A concrete supplied-schema volume-record parser: six strictly read bytes
populating the six fixed fields in order. -/
def rpVol : RecordParser RawVolEntry := fun data pos =>
  match readExact data pos 6 with
  | (.ok bs, p) =>
    (.ok { RawVolumeCreateTime := bs.getD 0 0, VolumeDevicePathOffset := bs.getD 1 0,
           VolumeDevicePathLength := bs.getD 2 0, SectionEOffset := bs.getD 3 0,
           SectionFOffset := bs.getD 4 0, SectionFStringsCount := bs.getD 5 0 }, p)
  | (.error e, p) => (.error e, p)

/-- A concrete volume schema instance built from `rpVol`. -/
def vsTest : VolSchemas := ⟨rpVol, rpVol, rpVol, rpVol⟩

/-- A concrete file-information schema instance (each version parsing nothing
and yielding the `fiC1` table). -/
def fisTest : FileInfoSchemas :=
  ⟨fun _ p => (.ok fiC1, p), fun _ p => (.ok fiC1, p), fun _ p => (.ok fiC1, p),
   fun _ p => (.ok fiC1, p)⟩

/-- A file-information table declaring two volume records at table base 0. -/
def fiC3 : FileInfo :=
  { SectionAOffset := 0, SectionAEntriesCount := 0, SectionBOffset := 0,
    SectionBEntriesCount := 0, SectionCOffset := 0, SectionCLength := 0, SectionDOffset := 0,
    SectionDEntriesCount := 2, RawLastExecutionTime := [], LastExecutionTime := [], RunCount := 0 }

/-- One volume record whose device path points at offset 100 with declared
length 5 — far past the end of the data, so the device-path parse fails. -/
def dataC3 : Bytes := [0, 100, 5, 0, 0, 0]

/-- The raw fixed fields encoded at the head of `dataC3`. -/
def rawC3 : RawVolEntry :=
  { RawVolumeCreateTime := 0, VolumeDevicePathOffset := 100, VolumeDevicePathLength := 5,
    SectionEOffset := 0, SectionFOffset := 0, SectionFStringsCount := 0 }

/-- One volume record (creation tick 7, device path at offset 6, length 2)
followed by the UTF-16 run `AB` as its device path. -/
def dataC9 : Bytes := [7, 6, 2, 0, 0, 0, 65, 0, 66, 0]

/-- A file-information table declaring one volume record at table base 0. -/
def fiC9 : FileInfo :=
  { SectionAOffset := 0, SectionAEntriesCount := 0, SectionBOffset := 0,
    SectionBEntriesCount := 0, SectionCOffset := 0, SectionCLength := 0, SectionDOffset := 0,
    SectionDEntriesCount := 1, RawLastExecutionTime := [], LastExecutionTime := [], RunCount := 0 }

/-- The volume entry decoded from `dataC9` under `fiC9`. -/
def entryC9 : VolEntry :=
  { RawVolumeCreateTime := 7, VolumeDevicePathOffset := 6, VolumeDevicePathLength := 2,
    SectionEOffset := 0, SectionFOffset := 0, SectionFStringsCount := 0,
    VolumeCreateTime := WindowsTime_parse_filetime 7, VolumeDevicePath := "AB" }

/-- The raw fixed fields encoded at the head of `dataC9`. -/
def rawC9 : RawVolEntry :=
  { RawVolumeCreateTime := 7, VolumeDevicePathOffset := 6, VolumeDevicePathLength := 2,
    SectionEOffset := 0, SectionFOffset := 0, SectionFStringsCount := 0 }

/-- A raw volume record with declared device-path length zero. -/
def rawC9z : RawVolEntry :=
  { RawVolumeCreateTime := 7, VolumeDevicePathOffset := 100, VolumeDevicePathLength := 0,
    SectionEOffset := 0, SectionFOffset := 0, SectionFStringsCount := 0 }

/-- A raw header fixture: signature `SCCA`, padded executable name, and the
hash value 0x1A2B3C from the spec's round-trip example. -/
def rawH : RawHeader :=
  { RawSignature := [83, 67, 67, 65], Version := "TEN",
    RawExecutableName := "CMD.EXE\x00\x00AB", RawPrefetchHash := 0x1A2B3C }

/-- The decoded header expected from `rawH`. -/
def hdrH : Header :=
  { Signature := "SCCA", Version := "TEN", ExecutableName := "CMD.EXE", PrefetchHash := "1A2B3C" }

/-- Raw bytes opening with the little-endian version tag 17 (a known layout
version, so the probe succeeds). -/
def dataTag17 : Bytes := [17, 0, 0, 0]

/-- Raw bytes opening with an unrecognized tag, so the probe fails. -/
def dataTag0 : Bytes := [0, 0, 0, 0]

/-- A decompression collaborator that always fails. -/
def dFail : Bytes → Except String Bytes := fun _ => .error "decompression error"

/-- A byte fixture too short for even the two-byte length prefix of a
directory string. -/
def dataC7 : Bytes := [255]

/-- The device-path value of a volume entry as the spec describes it: seek to
(table base + per-record device-path offset), read a text run of twice the
declared length in bytes, strip embedded null padding, and decode. -/
def devicePathOf (fi : FileInfo) (raw : RawVolEntry) (data : Bytes) : Except String String :=
  paddedStringUtf8 raw.VolumeDevicePathLength
    (((readUpTo data (fi.SectionDOffset + raw.VolumeDevicePathOffset)
        (raw.VolumeDevicePathLength * 2)).1).filter (fun b => b ≠ 0))

theorem hexDigit_ne_x (d : Nat) : hexDigit d ≠ 'x' := by
  by_cases h : d < 16
  · interval_cases d <;> decide
  · simp only [hexDigit, if_neg (by omega : ¬d < 10), if_neg h]
    decide

theorem x_not_mem_hexCharsAux (fuel : Nat) : ∀ n, 'x' ∉ hexCharsAux fuel n := by
  induction fuel with
  | zero => intro n; simp [hexCharsAux]
  | succ fuel ih =>
    intro n
    by_cases h : n < 16
    · simp only [hexCharsAux, if_pos h, List.mem_singleton]
      exact fun hx => hexDigit_ne_x n hx.symm
    · simp only [hexCharsAux, if_neg h, List.mem_append, List.mem_singleton]
      rintro (hx | hx)
      · exact ih (n / 16) hx
      · exact hexDigit_ne_x (n % 16) hx.symm

theorem replace0x_of_not_mem_aux (k : Nat) :
    ∀ l : List Char, l.length ≤ k → 'x' ∉ l → replace0x l = l := by
  induction k with
  | zero =>
    intro l hl _
    have : l = [] := List.eq_nil_of_length_eq_zero (Nat.le_zero.mp hl)
    simp [this, replace0x]
  | succ k ih =>
    intro l hl hx
    match l with
    | [] => simp [replace0x]
    | [a] => simp [replace0x]
    | a :: b :: t =>
      have hcond : ¬(a = '0' ∧ b = 'x') := by
        rintro ⟨-, rfl⟩
        exact hx (by simp)
      rw [replace0x, if_neg hcond]
      have hlen : (b :: t).length ≤ k := by
        simp only [List.length_cons] at hl ⊢
        omega
      have hmem : 'x' ∉ b :: t := fun hm => hx (List.mem_cons_of_mem _ hm)
      rw [ih (b :: t) hlen hmem]

theorem replace0x_of_not_mem (l : List Char) (hx : 'x' ∉ l) : replace0x l = l :=
  replace0x_of_not_mem_aux l.length l le_rfl hx

theorem toUpper_hexDigit (d : Nat) : Char.toUpper (hexDigit d) = hexUpperDigit d := by
  by_cases h : d < 16
  · interval_cases d <;> decide
  · simp only [hexDigit, hexUpperDigit, if_neg (by omega : ¬d < 10), if_neg h]
    decide

theorem map_toUpper_hexCharsAux (fuel : Nat) :
    ∀ n, (hexCharsAux fuel n).map Char.toUpper = hexUpperCharsAux fuel n := by
  induction fuel with
  | zero => intro n; simp [hexCharsAux, hexUpperCharsAux]
  | succ fuel ih =>
    intro n
    by_cases h : n < 16
    · simp [hexCharsAux, hexUpperCharsAux, if_pos h, toUpper_hexDigit]
    · simp [hexCharsAux, hexUpperCharsAux, if_neg h, List.map_append, ih, toUpper_hexDigit]

theorem hex_pipeline (n : Nat) :
    (replace0x (pyHexChars n)).map Char.toUpper = hexUpperChars n := by
  have h1 : replace0x (pyHexChars n) = hexChars n := by
    show replace0x ('0' :: 'x' :: hexChars n) = hexChars n
    rw [replace0x, if_pos ⟨rfl, rfl⟩]
    exact replace0x_of_not_mem _ (x_not_mem_hexCharsAux (n + 1) n)
  rw [h1]
  exact map_toUpper_hexCharsAux (n + 1) n

theorem splitAtNull_fst (l : List Char) :
    (splitAtNull l).1 = l.takeWhile (fun c => c ≠ nullChar) := by
  induction l with
  | nil => simp [splitAtNull]
  | cons c t ih =>
    by_cases hc : c = nullChar
    · simp [splitAtNull, List.takeWhile_cons, hc]
    · simp [splitAtNull, List.takeWhile_cons, hc, ih]

theorem fnLoop_past (fi : FileInfo) (data : Bytes) :
    ∀ (n pos : Nat), fi.SectionCOffset + fi.SectionCLength < pos →
      fnLoop fi data n pos = (.ok (List.replicate n none), pos) := by
  intro n
  induction n with
  | zero => intro pos _; simp [fnLoop]
  | succ n ih =>
    intro pos h
    have hguard : ¬(pos - fi.SectionCOffset ≤ fi.SectionCLength) := by omega
    rw [fnLoop, if_neg hguard, ih pos h]
    simp [List.replicate]

theorem recordLoop_length {α : Type} (rp : RecordParser α) (data : Bytes) :
    ∀ (n pos : Nat) (l : List α) (p' : Nat),
      recordLoop rp data n pos = (.ok l, p') → l.length = n := by
  intro n
  induction n with
  | zero =>
    intro pos l p' h
    simp [recordLoop] at h
    simp [h.1.symm]
  | succ n ih =>
    intro pos l p' h
    rw [recordLoop] at h
    split at h
    · simp at h
    · next v p heq =>
      split at h
      · simp at h
      · next l0 p'' heq2 =>
        simp only [Prod.mk.injEq, Except.ok.injEq] at h
        have := ih p l0 p'' heq2
        simp [← h.1, List.length_cons, this]

theorem recordLoop_head_error {α : Type} (rp : RecordParser α) (data : Bytes)
    (n pos : Nat) (e : String) (h : (rp data pos).1 = .error e) :
    (recordLoop rp data (n + 1) pos).1 = .error e := by
  rw [recordLoop]
  cases hr : rp data pos with
  | mk r p =>
    rw [hr] at h
    simp at h
    simp [h]

theorem recordLoop_head_ok {α : Type} (rp : RecordParser α) (data : Bytes)
    (n pos : Nat) (v : α) (p : Nat) (h : rp data pos = (.ok v, p)) :
    (recordLoop rp data (n + 1) pos).1 =
      ((recordLoop rp data n p).1).map (fun l => v :: l) := by
  simp only [recordLoop, h]
  cases hl : recordLoop rp data n p with
  | mk r' p'' =>
    cases r' with
    | error e => simp [hl, Except.map]
    | ok l => simp [hl, Except.map]

theorem volLoop_head_error (rp : RecordParser RawVolEntry) (fi : FileInfo)
    (data : Bytes) (n pos : Nat) (e : String) (p : Nat)
    (h : rp data pos = (.error e, p)) :
    volLoop rp fi data (n + 1) pos = (.error e, p) := by
  rw [volLoop, h]

theorem volLoop_finish_error (rp : RecordParser RawVolEntry) (fi : FileInfo)
    (data : Bytes) (n pos : Nat) (raw : RawVolEntry) (p1 : Nat) (e : String) (p' : Nat)
    (h1 : rp data pos = (.ok raw, p1))
    (h2 : finishVolEntry fi raw data p1 = (.error e, p')) :
    volLoop rp fi data (n + 1) pos = (.error e, p') := by
  simp only [volLoop, h1, h2]

theorem volLoop_head_ok (rp : RecordParser RawVolEntry) (fi : FileInfo)
    (data : Bytes) (n pos : Nat) (raw : RawVolEntry) (p1 : Nat) (entry : VolEntry)
    (h1 : rp data pos = (.ok raw, p1))
    (h2 : finishVolEntry fi raw data p1 = (.ok entry, p1)) :
    (volLoop rp fi data (n + 1) pos).1 =
      ((volLoop rp fi data n p1).1).map (fun l => entry :: l) := by
  simp only [volLoop, h1, h2]
  cases hl : volLoop rp fi data n p1 with
  | mk r' p'' =>
    cases r' with
    | error e => simp [hl, Except.map]
    | ok l => simp [hl, Except.map]

theorem dirStrLoop_length (data : Bytes) :
    ∀ (n pos : Nat), ((dirStrLoop data n pos).1).length = n := by
  intro n
  induction n with
  | zero => intro pos; simp [dirStrLoop]
  | succ n ih => intro pos; simp [dirStrLoop, ih]

theorem dirVolLoop_map (fi : FileInfo) (data : Bytes) :
    ∀ (vols : List VolEntry) (pos : Nat),
      (dirVolLoop fi data vols pos).1 =
        vols.map (fun ve =>
          (dirStrLoop data ve.SectionFStringsCount (fi.SectionDOffset + ve.SectionFOffset)).1) := by
  intro vols
  induction vols with
  | nil => intro pos; simp [dirVolLoop]
  | cons ve rest ih => intro pos; simp [dirVolLoop, ih]

theorem fileRefsLoop_map {β : Type} (rp : RecordParser β) (fi : FileInfo) (data : Bytes) :
    ∀ (vols : List VolEntry) (pos : Nat),
      (fileRefsLoop rp fi data vols pos).1 =
        vols.map (fun ve => ((rp data (fi.SectionDOffset + ve.SectionEOffset)).1).toOption) := by
  intro vols
  induction vols with
  | nil => intro pos; simp [fileRefsLoop]
  | cons ve rest ih =>
    intro pos
    rw [fileRefsLoop]
    cases hr : rp data (fi.SectionDOffset + ve.SectionEOffset) with
    | mk r p =>
      cases r with
      | error e => simp [ih, hr, Except.toOption]
      | ok v => simp [ih, hr, Except.toOption]

theorem fnLoop_length (fi : FileInfo) (data : Bytes) :
    ∀ (n pos : Nat) (l : List (Option String)) (p' : Nat),
      fnLoop fi data n pos = (.ok l, p') → l.length = n := by
  intro n
  induction n with
  | zero =>
    intro pos l p' h
    simp [fnLoop] at h
    simp [h.1.symm]
  | succ n ih =>
    intro pos l p' h
    rw [fnLoop] at h
    split at h
    · split at h
      · simp at h
      · next s p heq =>
        split at h
        · simp at h
        · next l0 p'' heq2 =>
          simp only [Prod.mk.injEq, Except.ok.injEq] at h
          have := ih p l0 p'' heq2
          simp [← h.1, this]
    · split at h
      · simp at h
      · next l0 p'' heq2 =>
        simp only [Prod.mk.injEq, Except.ok.injEq] at h
        have := ih pos l0 p'' heq2
        simp [← h.1, this]

theorem fnLoop_step_ok (fi : FileInfo) (data : Bytes) (n pos : Nat) (s : String)
    (p : Nat) (hguard : pos - fi.SectionCOffset ≤ fi.SectionCLength)
    (h : parseFileNameString data pos = (.ok s, p)) :
    (fnLoop fi data (n + 1) pos).1 = ((fnLoop fi data n p).1).map (fun l => some s :: l) := by
  rw [fnLoop, if_pos hguard]
  simp only [h]
  cases hl : fnLoop fi data n p with
  | mk r' p'' =>
    cases r' with
    | error e => simp [hl, Except.map]
    | ok l => simp [hl, Except.map]

theorem finishVolEntry_ok (fi : FileInfo) (raw : RawVolEntry) (data : Bytes)
    (p1 : Nat) (e : VolEntry) (p' : Nat)
    (h : finishVolEntry fi raw data p1 = (.ok e, p')) :
    e.VolumeCreateTime = WindowsTime_parse_filetime raw.RawVolumeCreateTime ∧
    p' = p1 ∧ devicePathOf fi raw data = .ok e.VolumeDevicePath := by
  simp only [finishVolEntry] at h
  unfold devicePathOf
  split at h
  · simp at h
  · next path hp =>
    simp only [Prod.mk.injEq, Except.ok.injEq] at h
    rw [← h.1, ← h.2]
    exact ⟨rfl, rfl, by rw [hp]⟩

theorem finishVolEntry_zero (fi : FileInfo) (raw : RawVolEntry) (data : Bytes)
    (p1 : Nat) (hz : raw.VolumeDevicePathLength = 0) :
    ∃ e : VolEntry, finishVolEntry fi raw data p1 = (.ok e, p1) ∧ e.VolumeDevicePath = "" := by
  refine ⟨{ RawVolumeCreateTime := raw.RawVolumeCreateTime
            VolumeDevicePathOffset := raw.VolumeDevicePathOffset
            VolumeDevicePathLength := raw.VolumeDevicePathLength
            SectionEOffset := raw.SectionEOffset
            SectionFOffset := raw.SectionFOffset
            SectionFStringsCount := raw.SectionFStringsCount
            VolumeCreateTime := WindowsTime_parse_filetime raw.RawVolumeCreateTime
            VolumeDevicePath := "" }, ?_, rfl⟩
  have hr0 : readUpTo data (fi.SectionDOffset + raw.VolumeDevicePathOffset) 0 =
      ([], fi.SectionDOffset + raw.VolumeDevicePathOffset) := by
    simp [readUpTo]
  have hpath : paddedStringUtf8 raw.VolumeDevicePathLength
      (((readUpTo data (fi.SectionDOffset + raw.VolumeDevicePathOffset)
        (raw.VolumeDevicePathLength * 2)).1).filter (fun b => b ≠ 0)) = .ok "" := by
    rw [hz, Nat.zero_mul, hr0]
    rfl
  simp only [finishVolEntry, hpath]

/-- C1 (corrected): the filename-strings decoder iterates once per
file-metrics entry in order, decoding one length-prefixed UTF-16 string while
the running byte offset from the table start is less than *or equal to* the
declared table length (src/prefetch.py line 159 tests with a non-strict
comparison); once the running offset strictly exceeds the declared length it
emits absent for every remaining metrics entry and never reads.  In
particular, a table whose declared byte length is exactly exhausted after
`k < count` entries still decodes a string for entry `k`, reading past the
declared table length. -/
theorem filename_strings_bounds_amended :
  (∀ (fi : FileInfo) (data : Bytes) (n pos : Nat),
      fi.SectionCOffset + fi.SectionCLength < pos →
      fnLoop fi data n pos = (.ok (List.replicate n none), pos)) ∧
  (∀ (fi : FileInfo) (data : Bytes) (n pos : Nat) (s : String) (p : Nat),
      pos - fi.SectionCOffset ≤ fi.SectionCLength →
      parseFileNameString data pos = (.ok s, p) →
      (fnLoop fi data (n + 1) pos).1 = ((fnLoop fi data n p).1).map (fun l => some s :: l)) ∧
  (∀ (fi : FileInfo) (data : Bytes) (n pos : Nat) (l : List (Option String)) (p' : Nat),
      fnLoop fi data n pos = (.ok l, p') → l.length = n) ∧
  (∀ (fi : FileInfo) (count : Nat) (data : Bytes) (pos : Nat),
      parse_filename_strings fi count data pos = ((fnLoop fi data count fi.SectionCOffset).1, pos)) :=
  ⟨fun fi data n pos h => fnLoop_past fi data n pos h,
   fun fi data n pos s p h1 h2 => fnLoop_step_ok fi data n pos s p h1 h2,
   fun fi data n pos l p' h => fnLoop_length fi data n pos l p' h,
   fun _ _ _ _ => rfl⟩

/-- Witness for C1's amended theorem at concrete inputs: past the declared
table length every entry is absent, and at an in-bounds offset a string is
decoded and consed onto the remaining entries. -/
theorem filename_strings_bounds_amended_witness :
  fnLoop fiC1 dataC1 2 5 = (.ok (List.replicate 2 none), 5) ∧
  (fnLoop fiC1 dataC1 1 0).1 = ((fnLoop fiC1 dataC1 0 6).1).map (fun l => some "A" :: l) ∧
  ([some "A"] : List (Option String)).length = 1 :=
  ⟨filename_strings_bounds_amended.1 fiC1 dataC1 2 5 (by decide),
   filename_strings_bounds_amended.2.1 fiC1 dataC1 0 0 "A" 6 (by decide) (by decide),
   filename_strings_bounds_amended.2.2.1 fiC1 dataC1 1 0 [some "A"] 6 (by decide)⟩

/-- Counterexample to C1 as stated: a string table whose declared byte length
(zero) is exactly exhausted after `k = 0 < count = 1` entries does not yield
absent for entry 0 — the decoder reads a string from past the declared table
length, because the guard compares with less-than-or-equal rather than
strictly-less. -/
theorem filename_strings_exact_exhaustion_reads :
  parse_filename_strings fiC1 1 dataC1 0 = (.ok [some "A"], 0) ∧
  parse_filename_strings fiC1 1 dataC1 0 ≠ (.ok [(none : Option String)], 0) := by
  exact ⟨by decide, by decide⟩

/-- C2 (corrected): the file-metrics decoder decodes exactly
`SectionAEntriesCount` records starting at `SectionAOffset`, but a decode
failure while decoding record `N` is not confined to entry `N`: the loop body
(src/prefetch.py lines 208-213) has no per-entry exception handler, so the
error propagates, the whole section decode fails, and entries `0..N-1` are
discarded (the cursor still being restored by the finally block). -/
theorem file_metrics_amended :
  (∀ (α : Type) (rp : RecordParser α) (data : Bytes) (n pos : Nat) (l : List α) (p' : Nat),
      recordLoop rp data n pos = (.ok l, p') → l.length = n) ∧
  (∀ (α : Type) (rp : RecordParser α) (data : Bytes) (n pos : Nat) (e : String),
      (rp data pos).1 = .error e → (recordLoop rp data (n + 1) pos).1 = .error e) ∧
  (∀ (α : Type) (rp : RecordParser α) (data : Bytes) (n pos : Nat) (v : α) (p : Nat),
      rp data pos = (.ok v, p) →
      (recordLoop rp data (n + 1) pos).1 = ((recordLoop rp data n p).1).map (fun l => v :: l)) ∧
  (∀ (α : Type) (ms : MetricsSchemas α) (v : String) (fi : FileInfo) (data : Bytes) (pos : Nat),
      parse_file_metrics ms v fi data pos =
        ((recordLoop (metricsSchemaFor ms v) data fi.SectionAEntriesCount fi.SectionAOffset).1, pos)) :=
  ⟨fun _ rp data n pos l p' h => recordLoop_length rp data n pos l p' h,
   fun _ rp data n pos e h => recordLoop_head_error rp data n pos e h,
   fun _ rp data n pos v p h => recordLoop_head_ok rp data n pos v p h,
   fun _ _ _ _ _ _ => rfl⟩

/-- Witness for C2's amended theorem at concrete inputs: a successful loop
yields exactly as many entries as requested, a failing head record propagates
its error, and a successful head record conses onto the rest. -/
theorem file_metrics_amended_witness :
  ([[0, 1, 2, 3]] : List Bytes).length = 1 ∧
  (recordLoop rp4 dataC2 2 4).1 = .error "short read" ∧
  (recordLoop rp4 dataC2 2 0).1 =
    ((recordLoop rp4 dataC2 1 4).1).map (fun l => ([0, 1, 2, 3] : Bytes) :: l) :=
  ⟨file_metrics_amended.1 Bytes rp4 dataC2 1 0 [[0, 1, 2, 3]] 4 (by decide),
   file_metrics_amended.2.1 Bytes rp4 dataC2 1 4 "short read" (by decide),
   file_metrics_amended.2.2.1 Bytes rp4 dataC2 1 0 [0, 1, 2, 3] 4 (by decide)⟩

/-- Counterexample to C2 as stated: with two declared records and bytes for
only one, record 0 decodes but the short read during record 1 aborts the whole
section with an error — entry 0 is not kept in any result list. -/
theorem file_metrics_failure_aborts_section :
  parse_file_metrics msTest "XP" fiC2 dataC2 0 = (.error "short read", 0) ∧
  (parse_file_metrics msTest "XP" fiC2 dataC2 0).1 ≠ .ok [[0, 1, 2, 3]] := by
  exact ⟨by decide, by decide⟩

/-- C3 (corrected): in the volumes-info decoder a failure decoding a single
entry's device path is not an entry-level error: the loop body
(src/prefetch.py lines 129-140) has no per-entry exception handler, so the
error propagates, the whole volumes_info section decode fails (no entries are
returned, the cursor still being restored), and no further entries are
decoded. -/
theorem volumes_info_error_propagation_amended :
  (∀ (rp : RecordParser RawVolEntry) (fi : FileInfo) (data : Bytes) (n pos : Nat)
      (raw : RawVolEntry) (p1 : Nat) (e : String) (p' : Nat),
      rp data pos = (.ok raw, p1) → finishVolEntry fi raw data p1 = (.error e, p') →
      volLoop rp fi data (n + 1) pos = (.error e, p')) ∧
  (∀ (rp : RecordParser RawVolEntry) (fi : FileInfo) (data : Bytes) (n pos : Nat)
      (e : String) (p : Nat),
      rp data pos = (.error e, p) → volLoop rp fi data (n + 1) pos = (.error e, p)) ∧
  (∀ (vs : VolSchemas) (v : String) (fi : FileInfo) (data : Bytes) (pos : Nat),
      parse_volumes_info vs v fi data pos =
        ((volLoop (volSchemaFor vs v) fi data fi.SectionDEntriesCount fi.SectionDOffset).1, pos)) :=
  ⟨fun rp fi data n pos raw p1 e p' h1 h2 => volLoop_finish_error rp fi data n pos raw p1 e p' h1 h2,
   fun rp fi data n pos e p h => volLoop_head_error rp fi data n pos e p h,
   fun _ _ _ _ _ => rfl⟩

/-- Witness for C3's amended theorem at concrete inputs: a failing device-path
parse aborts the loop with its error, as does a failing fixed-record parse. -/
theorem volumes_info_error_propagation_amended_witness :
  volLoop rpVol fiC3 dataC3 1 0 = (.error "short read", 100) ∧
  volLoop rpVol fiC3 dataC3 1 6 = (.error "short read", 6) :=
  ⟨volumes_info_error_propagation_amended.1 rpVol fiC3 dataC3 0 0 rawC3 6 "short read" 100
     (by decide) (by decide),
   volumes_info_error_propagation_amended.2.1 rpVol fiC3 dataC3 0 6 "short read" 6 (by decide)⟩

/-- Counterexample to C3 as stated: a two-entry volume table whose first
entry's device path fails to decode yields a section-level error rather than
an absent device path for entry 0 plus a decoded entry 1. -/
theorem volumes_info_device_path_failure_aborts :
  parse_volumes_info vsTest "XP" fiC3 dataC3 0 = (.error "short read", 0) := by
  decide

/-- C4 (confirmed, spec-modelled wrapper): for every section decoder and every
byte source, the cursor position immediately after the decoder call (made
through the property cache's save/restore scope, modelled from the spec)
equals its position immediately before the call, on every exit path; the six
decoders with their own try/finally in `src/prefetch.py` restore the cursor
even without the wrapper. -/
theorem cursor_restore_all_sections :
  (∀ (hp : RecordParser RawHeader) (data : Bytes) (pos : Nat),
      (withRestore (parse_header hp data) pos).2 = pos) ∧
  (∀ (fs : FileInfoSchemas) (v : String) (data : Bytes) (pos : Nat),
      (withRestore (parse_file_info fs v data) pos).2 = pos) ∧
  (∀ (α : Type) (ms : MetricsSchemas α) (v : String) (fi : FileInfo) (data : Bytes) (pos : Nat),
      (withRestore (parse_file_metrics ms v fi data) pos).2 = pos ∧
      (parse_file_metrics ms v fi data pos).2 = pos) ∧
  (∀ (fi : FileInfo) (count : Nat) (data : Bytes) (pos : Nat),
      (withRestore (parse_filename_strings fi count data) pos).2 = pos ∧
      (parse_filename_strings fi count data pos).2 = pos) ∧
  (∀ (γ : Type) (rp : RecordParser γ) (fi : FileInfo) (data : Bytes) (pos : Nat),
      (withRestore (parse_trace_chains rp fi data) pos).2 = pos ∧
      (parse_trace_chains rp fi data pos).2 = pos) ∧
  (∀ (vs : VolSchemas) (v : String) (fi : FileInfo) (data : Bytes) (pos : Nat),
      (withRestore (parse_volumes_info vs v fi data) pos).2 = pos ∧
      (parse_volumes_info vs v fi data pos).2 = pos) ∧
  (∀ (β : Type) (rp : RecordParser β) (fi : FileInfo) (vols : List VolEntry)
      (data : Bytes) (pos : Nat),
      (withRestore (parse_file_references rp fi vols data) pos).2 = pos ∧
      (parse_file_references rp fi vols data pos).2 = pos) ∧
  (∀ (fi : FileInfo) (vols : List VolEntry) (data : Bytes) (pos : Nat),
      (withRestore (parse_directory_strings fi vols data) pos).2 = pos ∧
      (parse_directory_strings fi vols data pos).2 = pos) :=
  ⟨fun _ _ _ => rfl, fun _ _ _ _ => rfl, fun _ _ _ _ _ _ => ⟨rfl, rfl⟩,
   fun _ _ _ _ => ⟨rfl, rfl⟩, fun _ _ _ _ _ => ⟨rfl, rfl⟩, fun _ _ _ _ _ => ⟨rfl, rfl⟩,
   fun _ _ _ _ _ _ => ⟨rfl, rfl⟩, fun _ _ _ _ => ⟨rfl, rfl⟩⟩

/-- C5 (confirmed, spec-modelled probe): when the leading version-tag probe
succeeds, the raw bytes themselves become the byte source; when it fails, the
fallback receives exactly the original bytes (the probe is non-destructive)
and the decompression collaborator's output becomes the byte source, its
failure being fatal for the whole parse. -/
theorem create_stream_probe_fallback :
  (∀ (raw : Bytes) (d : Bytes → Except String Bytes) (v : Nat),
      get_version raw = some v → create_stream d raw = .ok raw) ∧
  (∀ (raw : Bytes) (d : Bytes → Except String Bytes),
      get_version raw = none → create_stream d raw = d raw) ∧
  (∀ (raw : Bytes) (d : Bytes → Except String Bytes) (e : String),
      get_version raw = none → d raw = .error e → create_stream d raw = .error e) := by
  refine ⟨?_, ?_, ?_⟩
  · intro raw d v h
    simp [create_stream, h]
  · intro raw d h
    simp [create_stream, h]
  · intro raw d e h1 h2
    simp [create_stream, h1, h2]

/-- Witness for C5 at concrete inputs: a recognized tag keeps the raw bytes, an
unrecognized tag hands the original bytes to the decompressor, and a failing
decompressor is fatal. -/
theorem create_stream_probe_fallback_witness :
  create_stream dFail dataTag17 = .ok dataTag17 ∧
  create_stream dFail dataTag0 = dFail dataTag0 ∧
  create_stream dFail dataTag0 = .error "decompression error" :=
  ⟨create_stream_probe_fallback.1 dataTag17 dFail 17 (by decide),
   create_stream_probe_fallback.2.1 dataTag0 dFail (by decide),
   create_stream_probe_fallback.2.2 dataTag0 dFail "decompression error" (by decide) rfl⟩

/-- C6 (confirmed): for every decoded header, `ExecutableName` is the prefix
of the raw fixed-width executable-name field up to (and excluding) the first
embedded null, and `PrefetchHash` is the raw hash integer rendered as an
uppercase hexadecimal string with no radix prefix. -/
theorem header_executable_name_and_hash :
  ∀ (raw : RawHeader) (h : Header), deriveHeader raw = .ok h →
    h.ExecutableName =
      String.mk (raw.RawExecutableName.toList.takeWhile (fun c => c ≠ nullChar)) ∧
    h.PrefetchHash = String.mk (hexUpperChars raw.RawPrefetchHash) := by
  intro raw h hd
  unfold deriveHeader at hd
  split at hd
  · simp at hd
  · simp only [Except.ok.injEq] at hd
    rw [← hd]
    constructor
    · show String.mk (splitAtNull raw.RawExecutableName.toList).1 = _
      rw [splitAtNull_fst]
    · show String.mk ((replace0x (pyHexChars raw.RawPrefetchHash)).map Char.toUpper) = _
      rw [hex_pipeline]

/-- Witness for C6 at the spec's round-trip example: signature `SCCA`, padded
name `CMD.EXE`, raw hash 0x1A2B3C rendering as `1A2B3C`. -/
theorem header_executable_name_and_hash_witness :
  deriveHeader rawH = .ok hdrH ∧
  hdrH.ExecutableName =
    String.mk (rawH.RawExecutableName.toList.takeWhile (fun c => c ≠ nullChar)) ∧
  hdrH.PrefetchHash = String.mk (hexUpperChars rawH.RawPrefetchHash) :=
  ⟨by decide, header_executable_name_and_hash rawH hdrH (by decide)⟩

/-- C7 (confirmed): the directory-strings decoder produces, for each
volumes-info entry in order, a list of exactly that entry's declared string
count read from (table base + that entry's string-table offset); each string
is decoded from a 2-byte length prefix followed by `length * 2 + 2` bytes
interpreted as UTF-16 with null padding stripped; a failure decoding one
string yields absent for that single string only and decoding continues with
the remaining strings and the remaining volumes. -/
theorem directory_strings_per_string :
  (∀ (fi : FileInfo) (vols : List VolEntry) (data : Bytes) (pos : Nat),
      parse_directory_strings fi vols data pos =
        (.ok (vols.map (fun ve =>
          (dirStrLoop data ve.SectionFStringsCount
            (fi.SectionDOffset + ve.SectionFOffset)).1)), pos)) ∧
  (∀ (data : Bytes) (n pos : Nat), ((dirStrLoop data n pos).1).length = n) ∧
  (∀ (data : Bytes) (pos : Nat), (parseDirectoryString data pos).1 = none →
      ∀ n : Nat, (dirStrLoop data (n + 1) pos).1 =
        none :: (dirStrLoop data n (parseDirectoryString data pos).2).1) ∧
  (∀ (data : Bytes) (pos : Nat) (lb : Bytes) (p : Nat) (cs : List Char),
      readExact data pos 2 = (.ok lb, p) →
      utf16Decode (readUpTo data p (leNat lb * 2 + 2)).1 = some cs →
      parseDirectoryString data pos =
        (some (String.mk (stripNulls cs)), (readUpTo data p (leNat lb * 2 + 2)).2)) := by
  refine ⟨?_, ?_, ?_, ?_⟩
  · intro fi vols data pos
    simp [parse_directory_strings, dirVolLoop_map]
  · intro data n pos
    exact dirStrLoop_length data n pos
  · intro data pos h n
    simp only [dirStrLoop]
    rw [h]
  · intro data pos lb p cs h1 h2
    simp only [parseDirectoryString, h1]
    rw [h2]

/-- Witness for C7 at concrete inputs: a failing length-prefix read yields a
single absent entry with the loop continuing, and a well-formed prefix and run
decode to the stripped string. -/
theorem directory_strings_per_string_witness :
  (dirStrLoop dataC7 1 0).1 =
    none :: (dirStrLoop dataC7 0 (parseDirectoryString dataC7 0).2).1 ∧
  parseDirectoryString dataC1 0 =
    (some (String.mk (stripNulls ['A', nullChar])), (readUpTo dataC1 2 (leNat [1, 0] * 2 + 2)).2) :=
  ⟨directory_strings_per_string.2.2.1 dataC7 0 (by decide) 0,
   directory_strings_per_string.2.2.2 dataC1 0 [1, 0] 2 ['A', nullChar] (by decide) (by decide)⟩

/-- C8 (confirmed): the file-references decoder decodes, for each volumes-info
entry in order and independently, the reference table at (table base + that
entry's reference-table offset); a failure decoding an entire volume's table
yields absent for that volume only, and every other volume's table is decoded
exactly as it would be on its own. -/
theorem file_references_per_volume :
  ∀ (β : Type) (rp : RecordParser β) (fi : FileInfo) (vols : List VolEntry)
    (data : Bytes) (pos : Nat),
    parse_file_references rp fi vols data pos =
      (.ok (vols.map (fun ve =>
        ((rp data (fi.SectionDOffset + ve.SectionEOffset)).1).toOption)), pos) := by
  intro β rp fi vols data pos
  simp [parse_file_references, fileRefsLoop_map]

/-- C9 (confirmed): each volumes-info entry's `VolumeCreateTime` is the raw
creation tick passed through the Windows-Timestamp Decoder; its device path is
read from (table base + the entry's device-path offset) as a UTF-16 run of the
declared length with embedded null padding stripped; the cursor is restored to
the position immediately after the fixed record before the next entry is
decoded; and a declared device-path length of zero yields an empty string, not
an error. -/
theorem volumes_info_entry_semantics :
  (∀ (fi : FileInfo) (raw : RawVolEntry) (data : Bytes) (p1 : Nat) (e : VolEntry) (p' : Nat),
      finishVolEntry fi raw data p1 = (.ok e, p') →
      e.VolumeCreateTime = WindowsTime_parse_filetime raw.RawVolumeCreateTime ∧
      p' = p1 ∧ devicePathOf fi raw data = .ok e.VolumeDevicePath) ∧
  (∀ (fi : FileInfo) (raw : RawVolEntry) (data : Bytes) (p1 : Nat),
      raw.VolumeDevicePathLength = 0 →
      ∃ e : VolEntry, finishVolEntry fi raw data p1 = (.ok e, p1) ∧ e.VolumeDevicePath = "") ∧
  (∀ (rp : RecordParser RawVolEntry) (fi : FileInfo) (data : Bytes) (n pos : Nat)
      (raw : RawVolEntry) (p1 : Nat) (entry : VolEntry),
      rp data pos = (.ok raw, p1) → finishVolEntry fi raw data p1 = (.ok entry, p1) →
      (volLoop rp fi data (n + 1) pos).1 =
        ((volLoop rp fi data n p1).1).map (fun l => entry :: l)) :=
  ⟨fun fi raw data p1 e p' h => finishVolEntry_ok fi raw data p1 e p' h,
   fun fi raw data p1 h => finishVolEntry_zero fi raw data p1 h,
   fun rp fi data n pos raw p1 entry h1 h2 => volLoop_head_ok rp fi data n pos raw p1 entry h1 h2⟩

/-- Witness for C9 at concrete inputs: a decoded entry carries the
tick-decoded timestamp and the stripped device path with the cursor back after
the fixed record, a zero-length path yields the empty string, and the loop
continues from the post-record position. -/
theorem volumes_info_entry_semantics_witness :
  (entryC9.VolumeCreateTime = WindowsTime_parse_filetime rawC9.RawVolumeCreateTime ∧
   6 = 6 ∧ devicePathOf fiC9 rawC9 dataC9 = .ok entryC9.VolumeDevicePath) ∧
  (∃ e : VolEntry, finishVolEntry fiC9 rawC9z dataC9 6 = (.ok e, 6) ∧ e.VolumeDevicePath = "") ∧
  (volLoop rpVol fiC9 dataC9 1 0).1 =
    ((volLoop rpVol fiC9 dataC9 0 6).1).map (fun l => entryC9 :: l) :=
  ⟨volumes_info_entry_semantics.1 fiC9 rawC9 dataC9 6 entryC9 6 (by decide),
   volumes_info_entry_semantics.2.1 fiC9 rawC9z dataC9 6 (by decide),
   volumes_info_entry_semantics.2.2 rpVol fiC9 dataC9 0 0 rawC9 6 entryC9 (by decide) (by decide)⟩

/-- C10 (confirmed): for every header version tag other than `XP`, `SEVEN` and
`EIGHT`, the file-info, file-metrics and volumes-info dispatches all select
the version-30 (Windows 10) schema — the fourth branch is an unconditional
else, not an equality test against a fourth tag. -/
theorem version_dispatch_else_v30 :
  ∀ v : String, v ≠ "XP" → v ≠ "SEVEN" → v ≠ "EIGHT" →
    (∀ (α : Type) (ms : MetricsSchemas α), metricsSchemaFor ms v = ms.v30) ∧
    (∀ fs : FileInfoSchemas, fileInfoSchemaFor fs v = fs.v30) ∧
    (∀ vs : VolSchemas, volSchemaFor vs v = vs.v30) := by
  intro v h1 h2 h3
  refine ⟨fun α ms => ?_, fun fs => ?_, fun vs => ?_⟩ <;>
    simp [metricsSchemaFor, fileInfoSchemaFor, volSchemaFor, h1, h2, h3]

/-- Witness for C10 at the Windows 10 tag `TEN` with concrete schema sets. -/
theorem version_dispatch_else_v30_witness :
  metricsSchemaFor msTest "TEN" = msTest.v30 ∧
  fileInfoSchemaFor fisTest "TEN" = fisTest.v30 ∧
  volSchemaFor vsTest "TEN" = vsTest.v30 := by
  have h := version_dispatch_else_v30 "TEN" (by decide) (by decide) (by decide)
  exact ⟨h.1 Bytes msTest, h.2.1 fisTest, h.2.2 vsTest⟩
